import Mathlib

/-!
Shallow embedding of the ordering-predicate family of the `spectral`
assertion library (`src/numeric.rs`), together with the subject container
it builds on.

The four predicates `is_less_than`, `is_less_than_or_equal_to`,
`is_greater_than`, `is_greater_than_or_equal_to` are translated directly
from `src/numeric.rs`.  The subject container `Spec` and its primitives
`with_expected`, `with_actual` and `fail` live outside the given source
file, so they are modelled from the specification (§4.1): `with_expected`
and `with_actual` store a string, and `fail` raises a panic carrying the
two-line message built from the two stored strings.

Rust comparison operators on a `PartialOrd` type are derived from
`partial_cmp : T -> T -> Option Ordering` exactly as Rust's default
implementations do: `a < b` iff `partial_cmp a b = some .lt`, and so on.
A predicate call either returns the container (pass) or unwinds; the
unwinding outcome records the container state at the moment of the panic
and the panic message.
-/

/-- Modelled from the spec: the subject container (`Spec`, defined outside
`src/numeric.rs`) holds the subject and the two optional diagnostic
strings. -/
structure Spec (T : Type) where
  subject : T
  expected : Option String
  actual : Option String
deriving DecidableEq, Repr

/-- Modelled from the spec: `with_expected` stores the expectation text,
overwriting any prior value, and returns the container for chaining. -/
def Spec.with_expected {T : Type} (self : Spec T) (text : String) : Spec T :=
  { self with expected := some text }

/-- Modelled from the spec: `with_actual` stores the actual-value text,
overwriting any prior value, and returns the container for chaining. -/
def Spec.with_actual {T : Type} (self : Spec T) (text : String) : Spec T :=
  { self with actual := some text }

/-- Modelled from the spec: the message carried by the panic that `fail`
raises — line 1 `\n\texpected: <expectation>`, line 2 `\n\t but was:
<actual>`; an unset field renders as the empty string. -/
def Spec.failMessage {T : Type} (self : Spec T) : String :=
  "\n\texpected: " ++ self.expected.getD "" ++ "\n\t but was: " ++ self.actual.getD ""

/-- Outcome of a single predicate call: `ok` returns the container (a
mutable reference to the same container in Rust); `aborted` is the panic
raised by `fail`, recording the container state at the panic together with
the panic message. -/
inductive SpecOutcome (T : Type) where
  | ok (s : Spec T)
  | aborted (s : Spec T) (msg : String)
deriving DecidableEq, Repr

/-- Whether the call panicked. -/
def SpecOutcome.aborts {T : Type} : SpecOutcome T → Bool
  | .ok _ => false
  | .aborted _ _ => true

/-- The container state after the call (at the panic, when it aborted). -/
def SpecOutcome.container {T : Type} : SpecOutcome T → Spec T
  | .ok s => s
  | .aborted s _ => s

/-- Rust `PartialOrd::lt` derived from `partial_cmp`:
`a < b` iff `partial_cmp a b = some Ordering.lt`. -/
def rustLt {T : Type} (pc : T → T → Option Ordering) (a b : T) : Bool :=
  pc a b == some .lt

/-- Rust `PartialOrd::le` derived from `partial_cmp`:
`a <= b` iff `partial_cmp a b` is `some Ordering.lt` or `some Ordering.eq`. -/
def rustLe {T : Type} (pc : T → T → Option Ordering) (a b : T) : Bool :=
  match pc a b with
  | some .lt => true
  | some .eq => true
  | _ => false

/-- Rust `PartialOrd::gt` derived from `partial_cmp`:
`a > b` iff `partial_cmp a b = some Ordering.gt`. -/
def rustGt {T : Type} (pc : T → T → Option Ordering) (a b : T) : Bool :=
  pc a b == some .gt

/-- Rust `PartialOrd::ge` derived from `partial_cmp`:
`a >= b` iff `partial_cmp a b` is `some Ordering.gt` or `some Ordering.eq`. -/
def rustGe {T : Type} (pc : T → T → Option Ordering) (a b : T) : Bool :=
  match pc a b with
  | some .gt => true
  | some .eq => true
  | _ => false

/-- `is_less_than` from `src/numeric.rs`: fails (sets both diagnostic
strings and panics) when `subject >= other`, otherwise returns the
container.  `dbg` is the Debug rendering (`{:?}`) of the subject type. -/
def is_less_than {T : Type} (pc : T → T → Option Ordering) (dbg : T → String)
    (self : Spec T) (other : T) : SpecOutcome T :=
  let subject := self.subject
  if rustGe pc subject other then
    let failed :=
      (self.with_expected ("value less than <" ++ dbg other ++ ">")).with_actual
        ("<" ++ dbg subject ++ ">")
    .aborted failed failed.failMessage
  else
    .ok self

/-- `is_less_than_or_equal_to` from `src/numeric.rs`: fails when
`subject > other`. -/
def is_less_than_or_equal_to {T : Type} (pc : T → T → Option Ordering) (dbg : T → String)
    (self : Spec T) (other : T) : SpecOutcome T :=
  let subject := self.subject
  if rustGt pc subject other then
    let failed :=
      (self.with_expected ("value less than or equal to <" ++ dbg other ++ ">")).with_actual
        ("<" ++ dbg subject ++ ">")
    .aborted failed failed.failMessage
  else
    .ok self

/-- `is_greater_than` from `src/numeric.rs`: fails when `subject <= other`. -/
def is_greater_than {T : Type} (pc : T → T → Option Ordering) (dbg : T → String)
    (self : Spec T) (other : T) : SpecOutcome T :=
  let subject := self.subject
  if rustLe pc subject other then
    let failed :=
      (self.with_expected ("value greater than <" ++ dbg other ++ ">")).with_actual
        ("<" ++ dbg subject ++ ">")
    .aborted failed failed.failMessage
  else
    .ok self

/-- `is_greater_than_or_equal_to` from `src/numeric.rs`: fails when
`subject < other`. -/
def is_greater_than_or_equal_to {T : Type} (pc : T → T → Option Ordering) (dbg : T → String)
    (self : Spec T) (other : T) : SpecOutcome T :=
  let subject := self.subject
  if rustLt pc subject other then
    let failed :=
      (self.with_expected ("value greater than or equal to <" ++ dbg other ++ ">")).with_actual
        ("<" ++ dbg subject ++ ">")
    .aborted failed failed.failMessage
  else
    .ok self

/-- The duality law Rust's `PartialOrd` contract imposes on `partial_cmp`:
`partial_cmp a b = Some(Less)` iff `partial_cmp b a = Some(Greater)`, and
`Equal` / `None` are symmetric — packaged as swap-duality. -/
def SwapDual {T : Type} (pc : T → T → Option Ordering) : Prop :=
  ∀ a b, pc b a = Option.map Ordering.swap (pc a b)

/-- `partial_cmp` for a totally ordered type such as `i32`: the three-way
comparison always yields an ordering. -/
def intCmp (a b : Int) : Option Ordering :=
  some (if a < b then .lt else if a = b then .eq else .gt)

/-- The Debug rendering of `i32`. -/
def intDbg (a : Int) : String :=
  toString a

/-- A NaN-bearing numeric type in the style of `f64`: `nan` is
incomparable to every value, including itself. -/
inductive F where
  | nan
  | val (n : Nat)
deriving DecidableEq, Repr

/-- `partial_cmp` for `F`, in the style of `f64`: comparisons involving
`nan` yield no ordering. -/
def F.partial_cmp : F → F → Option Ordering
  | .val a, .val b => some (compare a b)
  | _, _ => none

/-- The Debug rendering of `F`. -/
def F.dbg : F → String
  | .nan => "NaN"
  | .val n => toString n

theorem aborts_is_less_than {T : Type} (pc : T → T → Option Ordering) (dbg : T → String)
    (self : Spec T) (other : T) :
    (is_less_than pc dbg self other).aborts = rustGe pc self.subject other := by
  unfold is_less_than
  cases h : rustGe pc self.subject other <;> simp [h, SpecOutcome.aborts]

theorem aborts_is_less_than_or_equal_to {T : Type} (pc : T → T → Option Ordering)
    (dbg : T → String) (self : Spec T) (other : T) :
    (is_less_than_or_equal_to pc dbg self other).aborts = rustGt pc self.subject other := by
  unfold is_less_than_or_equal_to
  cases h : rustGt pc self.subject other <;> simp [h, SpecOutcome.aborts]

theorem aborts_is_greater_than {T : Type} (pc : T → T → Option Ordering)
    (dbg : T → String) (self : Spec T) (other : T) :
    (is_greater_than pc dbg self other).aborts = rustLe pc self.subject other := by
  unfold is_greater_than
  cases h : rustLe pc self.subject other <;> simp [h, SpecOutcome.aborts]

theorem aborts_is_greater_than_or_equal_to {T : Type} (pc : T → T → Option Ordering)
    (dbg : T → String) (self : Spec T) (other : T) :
    (is_greater_than_or_equal_to pc dbg self other).aborts = rustLt pc self.subject other := by
  unfold is_greater_than_or_equal_to
  cases h : rustLt pc self.subject other <;> simp [h, SpecOutcome.aborts]

theorem is_less_than_ok {T : Type} (pc : T → T → Option Ordering) (dbg : T → String)
    (self : Spec T) (other : T) (h : rustGe pc self.subject other = false) :
    is_less_than pc dbg self other = .ok self := by
  simp [is_less_than, h]

theorem is_less_than_or_equal_to_ok {T : Type} (pc : T → T → Option Ordering)
    (dbg : T → String) (self : Spec T) (other : T)
    (h : rustGt pc self.subject other = false) :
    is_less_than_or_equal_to pc dbg self other = .ok self := by
  simp [is_less_than_or_equal_to, h]

theorem is_greater_than_ok {T : Type} (pc : T → T → Option Ordering) (dbg : T → String)
    (self : Spec T) (other : T) (h : rustLe pc self.subject other = false) :
    is_greater_than pc dbg self other = .ok self := by
  simp [is_greater_than, h]

theorem is_greater_than_or_equal_to_ok {T : Type} (pc : T → T → Option Ordering)
    (dbg : T → String) (self : Spec T) (other : T)
    (h : rustLt pc self.subject other = false) :
    is_greater_than_or_equal_to pc dbg self other = .ok self := by
  simp [is_greater_than_or_equal_to, h]

theorem is_less_than_aborted_eq {T : Type} (pc : T → T → Option Ordering) (dbg : T → String)
    (self : Spec T) (other : T) (s1 : Spec T) (msg : String)
    (h : is_less_than pc dbg self other = .aborted s1 msg) :
    s1 = ⟨self.subject, some ("value less than <" ++ dbg other ++ ">"),
          some ("<" ++ dbg self.subject ++ ">")⟩ ∧ msg = s1.failMessage := by
  cases hg : rustGe pc self.subject other
  · simp [is_less_than, hg] at h
  · simp [is_less_than, hg, Spec.with_expected, Spec.with_actual] at h
    obtain ⟨h1, h2⟩ := h
    subst h1
    subst h2
    exact ⟨rfl, rfl⟩

theorem is_less_than_or_equal_to_aborted_eq {T : Type} (pc : T → T → Option Ordering)
    (dbg : T → String) (self : Spec T) (other : T) (s1 : Spec T) (msg : String)
    (h : is_less_than_or_equal_to pc dbg self other = .aborted s1 msg) :
    s1 = ⟨self.subject, some ("value less than or equal to <" ++ dbg other ++ ">"),
          some ("<" ++ dbg self.subject ++ ">")⟩ ∧ msg = s1.failMessage := by
  cases hg : rustGt pc self.subject other
  · simp [is_less_than_or_equal_to, hg] at h
  · simp [is_less_than_or_equal_to, hg, Spec.with_expected, Spec.with_actual] at h
    obtain ⟨h1, h2⟩ := h
    subst h1
    subst h2
    exact ⟨rfl, rfl⟩

theorem is_greater_than_aborted_eq {T : Type} (pc : T → T → Option Ordering)
    (dbg : T → String) (self : Spec T) (other : T) (s1 : Spec T) (msg : String)
    (h : is_greater_than pc dbg self other = .aborted s1 msg) :
    s1 = ⟨self.subject, some ("value greater than <" ++ dbg other ++ ">"),
          some ("<" ++ dbg self.subject ++ ">")⟩ ∧ msg = s1.failMessage := by
  cases hg : rustLe pc self.subject other
  · simp [is_greater_than, hg] at h
  · simp [is_greater_than, hg, Spec.with_expected, Spec.with_actual] at h
    obtain ⟨h1, h2⟩ := h
    subst h1
    subst h2
    exact ⟨rfl, rfl⟩

theorem is_greater_than_or_equal_to_aborted_eq {T : Type} (pc : T → T → Option Ordering)
    (dbg : T → String) (self : Spec T) (other : T) (s1 : Spec T) (msg : String)
    (h : is_greater_than_or_equal_to pc dbg self other = .aborted s1 msg) :
    s1 = ⟨self.subject, some ("value greater than or equal to <" ++ dbg other ++ ">"),
          some ("<" ++ dbg self.subject ++ ">")⟩ ∧ msg = s1.failMessage := by
  cases hg : rustLt pc self.subject other
  · simp [is_greater_than_or_equal_to, hg] at h
  · simp [is_greater_than_or_equal_to, hg, Spec.with_expected, Spec.with_actual] at h
    obtain ⟨h1, h2⟩ := h
    subst h1
    subst h2
    exact ⟨rfl, rfl⟩

theorem ok_container_eq {T : Type} (o : SpecOutcome T) (s : Spec T)
    (h : o = .ok s) : o.container = s := by
  subst h; rfl

theorem swapDual_irrefl {T : Type} (pc : T → T → Option Ordering) (hsw : SwapDual pc)
    (a : T) : pc a a ≠ some .lt ∧ pc a a ≠ some .gt := by
  have h := hsw a a
  constructor <;> intro hc <;> rw [hc] at h <;> simp [Ordering.swap] at h

theorem intCmp_swapDual : SwapDual intCmp := by
  intro a b
  rcases lt_trichotomy a b with h | h | h
  · simp [intCmp, h, lt_asymm h, h.ne', Ordering.swap]
  · subst h
    simp [intCmp, lt_irrefl, Ordering.swap]
  · simp [intCmp, h, lt_asymm h, h.ne', Ordering.swap]

theorem is_less_than_ok_eq {T : Type} (pc : T → T → Option Ordering) (dbg : T → String)
    (self : Spec T) (other : T) (s1 : Spec T)
    (h : is_less_than pc dbg self other = .ok s1) : s1 = self := by
  cases hg : rustGe pc self.subject other
  · simp [is_less_than, hg] at h
    exact h.symm
  · simp [is_less_than, hg] at h

theorem is_less_than_or_equal_to_ok_eq {T : Type} (pc : T → T → Option Ordering)
    (dbg : T → String) (self : Spec T) (other : T) (s1 : Spec T)
    (h : is_less_than_or_equal_to pc dbg self other = .ok s1) : s1 = self := by
  cases hg : rustGt pc self.subject other
  · simp [is_less_than_or_equal_to, hg] at h
    exact h.symm
  · simp [is_less_than_or_equal_to, hg] at h

theorem is_greater_than_ok_eq {T : Type} (pc : T → T → Option Ordering)
    (dbg : T → String) (self : Spec T) (other : T) (s1 : Spec T)
    (h : is_greater_than pc dbg self other = .ok s1) : s1 = self := by
  cases hg : rustLe pc self.subject other
  · simp [is_greater_than, hg] at h
    exact h.symm
  · simp [is_greater_than, hg] at h

theorem is_greater_than_or_equal_to_ok_eq {T : Type} (pc : T → T → Option Ordering)
    (dbg : T → String) (self : Spec T) (other : T) (s1 : Spec T)
    (h : is_greater_than_or_equal_to pc dbg self other = .ok s1) : s1 = self := by
  cases hg : rustLt pc self.subject other
  · simp [is_greater_than_or_equal_to, hg] at h
    exact h.symm
  · simp [is_greater_than_or_equal_to, hg] at h

/-- C1 counterexample: `nan` and `0` are incomparable under `F.partial_cmp`,
yet none of the four predicates fails there — each returns the container
without aborting, contradicting the claim that each of the four predicates
fails on incomparable operands. -/
theorem c1_counterexample :
    F.partial_cmp F.nan (F.val 0) = none ∧
    ¬((is_less_than F.partial_cmp F.dbg ⟨F.nan, none, none⟩ (F.val 0)).aborts = true) ∧
    ¬((is_less_than_or_equal_to F.partial_cmp F.dbg ⟨F.nan, none, none⟩ (F.val 0)).aborts
        = true) ∧
    ¬((is_greater_than F.partial_cmp F.dbg ⟨F.nan, none, none⟩ (F.val 0)).aborts = true) ∧
    ¬((is_greater_than_or_equal_to F.partial_cmp F.dbg ⟨F.nan, none, none⟩
        (F.val 0)).aborts = true) := by
  decide

/-- C1 (amended): for every subject `s` and other `o` that are incomparable
(partial comparison yields no ordering), each of the four predicates
passes — it returns the container unchanged and does not abort — because
each fail-guard uses the complementary comparison operator, which is false
for incomparable operands. -/
theorem c1_amended {T : Type} (pc : T → T → Option Ordering) (dbg : T → String)
    (self : Spec T) (other : T) (h : pc self.subject other = none) :
    is_less_than pc dbg self other = .ok self ∧
    is_less_than_or_equal_to pc dbg self other = .ok self ∧
    is_greater_than pc dbg self other = .ok self ∧
    is_greater_than_or_equal_to pc dbg self other = .ok self := by
  refine ⟨is_less_than_ok pc dbg self other ?_,
    is_less_than_or_equal_to_ok pc dbg self other ?_,
    is_greater_than_ok pc dbg self other ?_,
    is_greater_than_or_equal_to_ok pc dbg self other ?_⟩ <;>
    simp [rustGe, rustGt, rustLe, rustLt, h]

/-- C1 witness: the amended statement holds at the concrete incomparable
pair `nan`, `0`. -/
theorem c1_witness :
    F.partial_cmp F.nan (F.val 0) = none ∧
    (is_less_than F.partial_cmp F.dbg ⟨F.nan, none, none⟩ (F.val 0)
        = .ok ⟨F.nan, none, none⟩ ∧
      is_less_than_or_equal_to F.partial_cmp F.dbg ⟨F.nan, none, none⟩ (F.val 0)
        = .ok ⟨F.nan, none, none⟩ ∧
      is_greater_than F.partial_cmp F.dbg ⟨F.nan, none, none⟩ (F.val 0)
        = .ok ⟨F.nan, none, none⟩ ∧
      is_greater_than_or_equal_to F.partial_cmp F.dbg ⟨F.nan, none, none⟩ (F.val 0)
        = .ok ⟨F.nan, none, none⟩) :=
  ⟨by decide, c1_amended F.partial_cmp F.dbg ⟨F.nan, none, none⟩ (F.val 0) (by decide)⟩

/-- C2: each predicate aborts exactly when the complementary comparison
operator holds on (subject, other) — `is_less_than` aborts iff
`subject >= other`, `is_less_than_or_equal_to` iff `subject > other`,
`is_greater_than` iff `subject <= other`, `is_greater_than_or_equal_to`
iff `subject < other` — and otherwise returns the container without
aborting. -/
theorem c2_abort_iff_complement {T : Type} (pc : T → T → Option Ordering)
    (dbg : T → String) (self : Spec T) (other : T) :
    ((is_less_than pc dbg self other).aborts = rustGe pc self.subject other ∧
      (rustGe pc self.subject other = false →
        is_less_than pc dbg self other = .ok self)) ∧
    ((is_less_than_or_equal_to pc dbg self other).aborts = rustGt pc self.subject other ∧
      (rustGt pc self.subject other = false →
        is_less_than_or_equal_to pc dbg self other = .ok self)) ∧
    ((is_greater_than pc dbg self other).aborts = rustLe pc self.subject other ∧
      (rustLe pc self.subject other = false →
        is_greater_than pc dbg self other = .ok self)) ∧
    ((is_greater_than_or_equal_to pc dbg self other).aborts = rustLt pc self.subject other ∧
      (rustLt pc self.subject other = false →
        is_greater_than_or_equal_to pc dbg self other = .ok self)) :=
  ⟨⟨aborts_is_less_than pc dbg self other,
      fun h => is_less_than_ok pc dbg self other h⟩,
    ⟨aborts_is_less_than_or_equal_to pc dbg self other,
      fun h => is_less_than_or_equal_to_ok pc dbg self other h⟩,
    ⟨aborts_is_greater_than pc dbg self other,
      fun h => is_greater_than_ok pc dbg self other h⟩,
    ⟨aborts_is_greater_than_or_equal_to pc dbg self other,
      fun h => is_greater_than_or_equal_to_ok pc dbg self other h⟩⟩

/-- C2 witness: at subject 1 and other 2, `is_less_than` does not abort and
returns the container. -/
theorem c2_witness :
    (is_less_than intCmp intDbg ⟨1, none, none⟩ 2).aborts = rustGe intCmp 1 2 ∧
    is_less_than intCmp intDbg ⟨1, none, none⟩ 2 = .ok ⟨1, none, none⟩ :=
  ⟨(c2_abort_iff_complement intCmp intDbg ⟨1, none, none⟩ 2).1.1,
    (c2_abort_iff_complement intCmp intDbg ⟨1, none, none⟩ 2).1.2 (by decide)⟩

/-- C9: for incomparable subject and other (partial comparison yields no
ordering), all four predicates pass without aborting, because each
fail-guard's comparison operator is false for incomparable operands. -/
theorem c9_incomparable_all_pass {T : Type} (pc : T → T → Option Ordering)
    (dbg : T → String) (self : Spec T) (other : T)
    (h : pc self.subject other = none) :
    (is_less_than pc dbg self other).aborts = false ∧
    (is_less_than_or_equal_to pc dbg self other).aborts = false ∧
    (is_greater_than pc dbg self other).aborts = false ∧
    (is_greater_than_or_equal_to pc dbg self other).aborts = false := by
  refine ⟨?_, ?_, ?_, ?_⟩
  · rw [aborts_is_less_than]
    simp [rustGe, h]
  · rw [aborts_is_less_than_or_equal_to]
    simp [rustGt, h]
  · rw [aborts_is_greater_than]
    simp [rustLe, h]
  · rw [aborts_is_greater_than_or_equal_to]
    simp [rustLt, h]

/-- C9 witness: at the concrete incomparable pair `nan`, `7`, none of the
four predicates aborts. -/
theorem c9_witness :
    (is_less_than F.partial_cmp F.dbg ⟨F.nan, none, none⟩ (F.val 7)).aborts = false ∧
    (is_less_than_or_equal_to F.partial_cmp F.dbg ⟨F.nan, none, none⟩
      (F.val 7)).aborts = false ∧
    (is_greater_than F.partial_cmp F.dbg ⟨F.nan, none, none⟩ (F.val 7)).aborts = false ∧
    (is_greater_than_or_equal_to F.partial_cmp F.dbg ⟨F.nan, none, none⟩
      (F.val 7)).aborts = false :=
  c9_incomparable_all_pass F.partial_cmp F.dbg ⟨F.nan, none, none⟩ (F.val 7) (by decide)

/-- C3: when a predicate fails, it sets the expectation text and the actual
text exactly as the table prescribes, using the debug rendering `dbg` of
the values: `value less than <o>` / `value less than or equal to <o>` /
`value greater than <o>` / `value greater than or equal to <o>` for the
expectation, and `<s>` for the actual. -/
theorem c3_failure_texts {T : Type} (pc : T → T → Option Ordering) (dbg : T → String) :
    (∀ (self : Spec T) (other : T) (s1 : Spec T) (m : String),
      is_less_than pc dbg self other = .aborted s1 m →
        s1.expected = some ("value less than <" ++ dbg other ++ ">") ∧
        s1.actual = some ("<" ++ dbg self.subject ++ ">")) ∧
    (∀ (self : Spec T) (other : T) (s1 : Spec T) (m : String),
      is_less_than_or_equal_to pc dbg self other = .aborted s1 m →
        s1.expected = some ("value less than or equal to <" ++ dbg other ++ ">") ∧
        s1.actual = some ("<" ++ dbg self.subject ++ ">")) ∧
    (∀ (self : Spec T) (other : T) (s1 : Spec T) (m : String),
      is_greater_than pc dbg self other = .aborted s1 m →
        s1.expected = some ("value greater than <" ++ dbg other ++ ">") ∧
        s1.actual = some ("<" ++ dbg self.subject ++ ">")) ∧
    (∀ (self : Spec T) (other : T) (s1 : Spec T) (m : String),
      is_greater_than_or_equal_to pc dbg self other = .aborted s1 m →
        s1.expected = some ("value greater than or equal to <" ++ dbg other ++ ">") ∧
        s1.actual = some ("<" ++ dbg self.subject ++ ">")) := by
  refine ⟨?_, ?_, ?_, ?_⟩ <;> intro self other s1 m h
  · obtain ⟨he, _⟩ := is_less_than_aborted_eq pc dbg self other s1 m h
    subst he
    exact ⟨rfl, rfl⟩
  · obtain ⟨he, _⟩ := is_less_than_or_equal_to_aborted_eq pc dbg self other s1 m h
    subst he
    exact ⟨rfl, rfl⟩
  · obtain ⟨he, _⟩ := is_greater_than_aborted_eq pc dbg self other s1 m h
    subst he
    exact ⟨rfl, rfl⟩
  · obtain ⟨he, _⟩ := is_greater_than_or_equal_to_aborted_eq pc dbg self other s1 m h
    subst he
    exact ⟨rfl, rfl⟩

/-- C3 witness: the four texts at the concrete failing calls — subject 3
against 2 for the two lower bounds, subject 2 against 3 for the two upper
bounds. -/
theorem c3_witness :
    ((some "value less than <2>" : Option String)
        = some ("value less than <" ++ intDbg 2 ++ ">") ∧
      (some "<3>" : Option String) = some ("<" ++ intDbg 3 ++ ">")) ∧
    ((some "value less than or equal to <2>" : Option String)
        = some ("value less than or equal to <" ++ intDbg 2 ++ ">") ∧
      (some "<3>" : Option String) = some ("<" ++ intDbg 3 ++ ">")) ∧
    ((some "value greater than <3>" : Option String)
        = some ("value greater than <" ++ intDbg 3 ++ ">") ∧
      (some "<2>" : Option String) = some ("<" ++ intDbg 2 ++ ">")) ∧
    ((some "value greater than or equal to <3>" : Option String)
        = some ("value greater than or equal to <" ++ intDbg 3 ++ ">") ∧
      (some "<2>" : Option String) = some ("<" ++ intDbg 2 ++ ">")) :=
  ⟨(c3_failure_texts intCmp intDbg).1 ⟨3, none, none⟩ 2
      ⟨3, some "value less than <2>", some "<3>"⟩
      "\n\texpected: value less than <2>\n\t but was: <3>" (by decide),
    (c3_failure_texts intCmp intDbg).2.1 ⟨3, none, none⟩ 2
      ⟨3, some "value less than or equal to <2>", some "<3>"⟩
      "\n\texpected: value less than or equal to <2>\n\t but was: <3>" (by decide),
    (c3_failure_texts intCmp intDbg).2.2.1 ⟨2, none, none⟩ 3
      ⟨2, some "value greater than <3>", some "<2>"⟩
      "\n\texpected: value greater than <3>\n\t but was: <2>" (by decide),
    (c3_failure_texts intCmp intDbg).2.2.2 ⟨2, none, none⟩ 3
      ⟨2, some "value greater than or equal to <3>", some "<2>"⟩
      "\n\texpected: value greater than or equal to <3>\n\t but was: <2>" (by decide)⟩

/-- C4: a failing predicate panics with exactly the two-line message
`\n\texpected: <expectation>\n\t but was: <actual>` — the second line's
leading whitespace being a tab followed by one space — and in particular
subject 3 with `is_less_than` against 2 aborts with exactly
`\n\texpected: value less than <2>\n\t but was: <3>`. -/
theorem c4_exact_message :
    (∀ (T : Type) (pc : T → T → Option Ordering) (dbg : T → String) (self : Spec T)
        (other : T) (s1 : Spec T) (m : String),
      is_less_than pc dbg self other = .aborted s1 m →
        m = "\n\texpected: " ++ s1.expected.getD ""
          ++ "\n\t but was: " ++ s1.actual.getD "") ∧
    (∀ (T : Type) (pc : T → T → Option Ordering) (dbg : T → String) (self : Spec T)
        (other : T) (s1 : Spec T) (m : String),
      is_less_than_or_equal_to pc dbg self other = .aborted s1 m →
        m = "\n\texpected: " ++ s1.expected.getD ""
          ++ "\n\t but was: " ++ s1.actual.getD "") ∧
    (∀ (T : Type) (pc : T → T → Option Ordering) (dbg : T → String) (self : Spec T)
        (other : T) (s1 : Spec T) (m : String),
      is_greater_than pc dbg self other = .aborted s1 m →
        m = "\n\texpected: " ++ s1.expected.getD ""
          ++ "\n\t but was: " ++ s1.actual.getD "") ∧
    (∀ (T : Type) (pc : T → T → Option Ordering) (dbg : T → String) (self : Spec T)
        (other : T) (s1 : Spec T) (m : String),
      is_greater_than_or_equal_to pc dbg self other = .aborted s1 m →
        m = "\n\texpected: " ++ s1.expected.getD ""
          ++ "\n\t but was: " ++ s1.actual.getD "") ∧
    is_less_than intCmp intDbg ⟨3, none, none⟩ 2 =
      .aborted ⟨3, some "value less than <2>", some "<3>"⟩
        "\n\texpected: value less than <2>\n\t but was: <3>" := by
  refine ⟨?_, ?_, ?_, ?_, by decide⟩ <;> intro T pc dbg self other s1 m h
  · exact (is_less_than_aborted_eq pc dbg self other s1 m h).2
  · exact (is_less_than_or_equal_to_aborted_eq pc dbg self other s1 m h).2
  · exact (is_greater_than_aborted_eq pc dbg self other s1 m h).2
  · exact (is_greater_than_or_equal_to_aborted_eq pc dbg self other s1 m h).2

/-- C4 witness: the exact message at the concrete failing call of subject 3
against 2. -/
theorem c4_witness :
    ("\n\texpected: value less than <2>\n\t but was: <3>" : String)
      = "\n\texpected: " ++ (some "value less than <2>" : Option String).getD ""
        ++ "\n\t but was: " ++ (some "<3>" : Option String).getD "" :=
  c4_exact_message.1 Int intCmp intDbg ⟨3, none, none⟩ 2
    ⟨3, some "value less than <2>", some "<3>"⟩
    "\n\texpected: value less than <2>\n\t but was: <3>" (by decide)

/-- C5: both inclusive bounds are reflexive — for every value `a` of a
lawful partially ordered type, `is_less_than_or_equal_to` with subject `a`
against `a` passes, and so does `is_greater_than_or_equal_to`. -/
theorem c5_reflexive_bounds {T : Type} (pc : T → T → Option Ordering) (dbg : T → String)
    (hsw : SwapDual pc) (self : Spec T) :
    is_less_than_or_equal_to pc dbg self self.subject = .ok self ∧
    is_greater_than_or_equal_to pc dbg self self.subject = .ok self := by
  obtain ⟨hlt, hgt⟩ := swapDual_irrefl pc hsw self.subject
  constructor
  · apply is_less_than_or_equal_to_ok
    unfold rustGt
    cases hpc : pc self.subject self.subject with
    | none => rfl
    | some ord =>
      cases ord with
      | lt => rfl
      | eq => rfl
      | gt => exact absurd hpc hgt
  · apply is_greater_than_or_equal_to_ok
    unfold rustLt
    cases hpc : pc self.subject self.subject with
    | none => rfl
    | some ord =>
      cases ord with
      | lt => exact absurd hpc hlt
      | eq => rfl
      | gt => rfl

/-- C5 witness: subject 5 against 5 passes both inclusive bounds. -/
theorem c5_witness :
    is_less_than_or_equal_to intCmp intDbg ⟨5, none, none⟩ 5 = .ok ⟨5, none, none⟩ ∧
    is_greater_than_or_equal_to intCmp intDbg ⟨5, none, none⟩ 5 = .ok ⟨5, none, none⟩ :=
  c5_reflexive_bounds intCmp intDbg intCmp_swapDual ⟨5, none, none⟩

/-- C6: on every failing path of every predicate, both the expectation
description and the actual description are set before `fail` is invoked —
whenever a call aborts, the container carried by the panic has both fields
populated. -/
theorem c6_fields_set_before_fail {T : Type} (pc : T → T → Option Ordering)
    (dbg : T → String) :
    (∀ (self : Spec T) (other : T) (s1 : Spec T) (m : String),
      is_less_than pc dbg self other = .aborted s1 m →
        s1.expected.isSome = true ∧ s1.actual.isSome = true) ∧
    (∀ (self : Spec T) (other : T) (s1 : Spec T) (m : String),
      is_less_than_or_equal_to pc dbg self other = .aborted s1 m →
        s1.expected.isSome = true ∧ s1.actual.isSome = true) ∧
    (∀ (self : Spec T) (other : T) (s1 : Spec T) (m : String),
      is_greater_than pc dbg self other = .aborted s1 m →
        s1.expected.isSome = true ∧ s1.actual.isSome = true) ∧
    (∀ (self : Spec T) (other : T) (s1 : Spec T) (m : String),
      is_greater_than_or_equal_to pc dbg self other = .aborted s1 m →
        s1.expected.isSome = true ∧ s1.actual.isSome = true) := by
  refine ⟨?_, ?_, ?_, ?_⟩ <;> intro self other s1 m h
  · obtain ⟨he, _⟩ := is_less_than_aborted_eq pc dbg self other s1 m h
    subst he
    exact ⟨rfl, rfl⟩
  · obtain ⟨he, _⟩ := is_less_than_or_equal_to_aborted_eq pc dbg self other s1 m h
    subst he
    exact ⟨rfl, rfl⟩
  · obtain ⟨he, _⟩ := is_greater_than_aborted_eq pc dbg self other s1 m h
    subst he
    exact ⟨rfl, rfl⟩
  · obtain ⟨he, _⟩ := is_greater_than_or_equal_to_aborted_eq pc dbg self other s1 m h
    subst he
    exact ⟨rfl, rfl⟩

/-- C6 witness: both fields are populated at the four concrete failing
calls. -/
theorem c6_witness :
    ((some "value less than <2>" : Option String).isSome = true ∧
      (some "<3>" : Option String).isSome = true) ∧
    ((some "value less than or equal to <2>" : Option String).isSome = true ∧
      (some "<3>" : Option String).isSome = true) ∧
    ((some "value greater than <3>" : Option String).isSome = true ∧
      (some "<2>" : Option String).isSome = true) ∧
    ((some "value greater than or equal to <3>" : Option String).isSome = true ∧
      (some "<2>" : Option String).isSome = true) :=
  ⟨(c6_fields_set_before_fail intCmp intDbg).1 ⟨3, none, none⟩ 2
      ⟨3, some "value less than <2>", some "<3>"⟩
      "\n\texpected: value less than <2>\n\t but was: <3>" (by decide),
    (c6_fields_set_before_fail intCmp intDbg).2.1 ⟨3, none, none⟩ 2
      ⟨3, some "value less than or equal to <2>", some "<3>"⟩
      "\n\texpected: value less than or equal to <2>\n\t but was: <3>" (by decide),
    (c6_fields_set_before_fail intCmp intDbg).2.2.1 ⟨2, none, none⟩ 3
      ⟨2, some "value greater than <3>", some "<2>"⟩
      "\n\texpected: value greater than <3>\n\t but was: <2>" (by decide),
    (c6_fields_set_before_fail intCmp intDbg).2.2.2 ⟨2, none, none⟩ 3
      ⟨2, some "value greater than or equal to <3>", some "<2>"⟩
      "\n\texpected: value greater than or equal to <3>\n\t but was: <2>" (by decide)⟩

/-- C7: every passing predicate call returns the container entirely
unchanged, so a chain of passing calls — here `is_greater_than_or_equal_to`
followed by `is_less_than` — causes no abort and no state change. -/
theorem c7_pass_leaves_unchanged {T : Type} (pc : T → T → Option Ordering)
    (dbg : T → String) :
    (∀ (self : Spec T) (other : T) (s1 : Spec T),
      is_less_than pc dbg self other = .ok s1 → s1 = self) ∧
    (∀ (self : Spec T) (other : T) (s1 : Spec T),
      is_less_than_or_equal_to pc dbg self other = .ok s1 → s1 = self) ∧
    (∀ (self : Spec T) (other : T) (s1 : Spec T),
      is_greater_than pc dbg self other = .ok s1 → s1 = self) ∧
    (∀ (self : Spec T) (other : T) (s1 : Spec T),
      is_greater_than_or_equal_to pc dbg self other = .ok s1 → s1 = self) ∧
    (∀ (self : Spec T) (o1 o2 : T) (s1 s2 : Spec T),
      is_greater_than_or_equal_to pc dbg self o1 = .ok s1 →
      is_less_than pc dbg s1 o2 = .ok s2 → s2 = self) := by
  refine ⟨fun self other s1 h => is_less_than_ok_eq pc dbg self other s1 h,
    fun self other s1 h => is_less_than_or_equal_to_ok_eq pc dbg self other s1 h,
    fun self other s1 h => is_greater_than_ok_eq pc dbg self other s1 h,
    fun self other s1 h => is_greater_than_or_equal_to_ok_eq pc dbg self other s1 h,
    ?_⟩
  intro self o1 o2 s1 s2 h1 h2
  have e1 := is_greater_than_or_equal_to_ok_eq pc dbg self o1 s1 h1
  subst e1
  exact is_less_than_ok_eq pc dbg s1 o2 s2 h2

/-- C7 witness: concrete passing calls return the container unchanged, and
the chained pair `is_greater_than_or_equal_to` then `is_less_than` on
subject 3 passes end to end. -/
theorem c7_witness :
    (⟨1, none, none⟩ : Spec Int) = ⟨1, none, none⟩ ∧
    (⟨2, none, none⟩ : Spec Int) = ⟨2, none, none⟩ ∧
    (⟨3, none, none⟩ : Spec Int) = ⟨3, none, none⟩ ∧
    (⟨4, none, none⟩ : Spec Int) = ⟨4, none, none⟩ ∧
    (⟨5, none, none⟩ : Spec Int) = ⟨5, none, none⟩ :=
  ⟨(c7_pass_leaves_unchanged intCmp intDbg).1 ⟨1, none, none⟩ 2 ⟨1, none, none⟩
      (by decide),
    (c7_pass_leaves_unchanged intCmp intDbg).2.1 ⟨2, none, none⟩ 2 ⟨2, none, none⟩
      (by decide),
    (c7_pass_leaves_unchanged intCmp intDbg).2.2.1 ⟨3, none, none⟩ 2 ⟨3, none, none⟩
      (by decide),
    (c7_pass_leaves_unchanged intCmp intDbg).2.2.2.1 ⟨4, none, none⟩ 4 ⟨4, none, none⟩
      (by decide),
    (c7_pass_leaves_unchanged intCmp intDbg).2.2.2.2 ⟨5, none, none⟩ 2 9
      ⟨5, none, none⟩ ⟨5, none, none⟩ (by decide) (by decide)⟩

/-- C8: no predicate call ever mutates the subject held by the container —
whether the call passes or aborts, the subject field of the resulting
container state equals the subject before the call. -/
theorem c8_subject_never_mutated {T : Type} (pc : T → T → Option Ordering)
    (dbg : T → String) (self : Spec T) (other : T) :
    (is_less_than pc dbg self other).container.subject = self.subject ∧
    (is_less_than_or_equal_to pc dbg self other).container.subject = self.subject ∧
    (is_greater_than pc dbg self other).container.subject = self.subject ∧
    (is_greater_than_or_equal_to pc dbg self other).container.subject = self.subject := by
  refine ⟨?_, ?_, ?_, ?_⟩
  · cases hg : rustGe pc self.subject other <;>
      simp [is_less_than, hg, SpecOutcome.container, Spec.with_expected, Spec.with_actual]
  · cases hg : rustGt pc self.subject other <;>
      simp [is_less_than_or_equal_to, hg, SpecOutcome.container, Spec.with_expected,
        Spec.with_actual]
  · cases hg : rustLe pc self.subject other <;>
      simp [is_greater_than, hg, SpecOutcome.container, Spec.with_expected, Spec.with_actual]
  · cases hg : rustLt pc self.subject other <;>
      simp [is_greater_than_or_equal_to, hg, SpecOutcome.container, Spec.with_expected,
        Spec.with_actual]

/-- C10: the predicates are dual under swapping subject and other — for a
lawful partial order, `is_less_than` with subject `s` against `o` aborts
exactly when `is_greater_than` with subject `o` against `s` aborts, and
likewise for the two inclusive bounds. -/
theorem c10_swap_duality {T : Type} (pc : T → T → Option Ordering) (dbg : T → String)
    (hsw : SwapDual pc) (s o : T) (e1 a1 e2 a2 : Option String) :
    (is_less_than pc dbg ⟨s, e1, a1⟩ o).aborts
      = (is_greater_than pc dbg ⟨o, e2, a2⟩ s).aborts ∧
    (is_less_than_or_equal_to pc dbg ⟨s, e1, a1⟩ o).aborts
      = (is_greater_than_or_equal_to pc dbg ⟨o, e2, a2⟩ s).aborts := by
  have h := hsw s o
  constructor
  · rw [aborts_is_less_than, aborts_is_greater_than]
    show rustGe pc s o = rustLe pc o s
    unfold rustGe rustLe
    rw [h]
    cases pc s o with
    | none => rfl
    | some ord => cases ord <;> rfl
  · rw [aborts_is_less_than_or_equal_to, aborts_is_greater_than_or_equal_to]
    show rustGt pc s o = rustLt pc o s
    unfold rustGt rustLt
    rw [h]
    cases pc s o with
    | none => rfl
    | some ord => cases ord <;> rfl

/-- C10 witness: duality at the concrete pair 1, 2 under the total order on
integers. -/
theorem c10_witness :
    (is_less_than intCmp intDbg ⟨1, none, none⟩ 2).aborts
      = (is_greater_than intCmp intDbg ⟨2, none, none⟩ 1).aborts ∧
    (is_less_than_or_equal_to intCmp intDbg ⟨1, none, none⟩ 2).aborts
      = (is_greater_than_or_equal_to intCmp intDbg ⟨2, none, none⟩ 1).aborts :=
  c10_swap_duality intCmp intDbg intCmp_swapDual 1 2 none none none none
